import Mathlib

/-!
Shallow embedding of the EMS mock backend simulation
(src/backend/ems_api/services.py) over exact rational arithmetic.

The Python code reads the wall clock and evaluates math.sin on values
derived from it.  Those transcendental readings are modelled as fields of
an environment record `Env`, constrained by `Env.Valid` to the ranges the
sine formulas can actually produce:
  - `solar_factor` is sin(normalized_time * pi) for normalized_time in
    [0, 1] when 6 <= hour <= 18, and 0 outside the window, hence in [0, 1];
  - `osc10` is sin(current_time / 10000), `osc8` is sin(current_time / 8000),
    and `time_sin` is sin((hour - 6) / 12 * pi), each in [-1, 1].
Python float arithmetic is modelled by exact rationals; Python round
(round half to even) is modelled by `pyRound`.
-/

namespace EMS

/-- Python builtin round to an integer: round half to even. -/
def pyRound (x : ℚ) : ℤ :=
  if x - (⌊x⌋ : ℚ) < 1/2 then ⌊x⌋
  else if 1/2 < x - (⌊x⌋ : ℚ) then ⌊x⌋ + 1
  else if ⌊x⌋ % 2 = 0 then ⌊x⌋ else ⌊x⌋ + 1

/-- Python round(x, 2): round to 2 decimal places. -/
def round2 (x : ℚ) : ℚ := (pyRound (100 * x) : ℚ) / 100

/-- Python round(x, 1): round to 1 decimal place. -/
def round1 (x : ℚ) : ℚ := (pyRound (10 * x) : ℚ) / 10

/-- Wall-clock-derived inputs of one advance call.  `current_time` is
time.time() * 1000, `iso` is datetime.now().isoformat(), and the four
rational fields are the values of the sine expressions the source
evaluates (see the module docstring). -/
structure Env where
  current_time : ℚ
  iso : String
  solar_factor : ℚ
  osc10 : ℚ
  osc8 : ℚ
  time_sin : ℚ
deriving DecidableEq

/-- Range constraints that every real wall-clock reading satisfies. -/
def Env.Valid (e : Env) : Prop :=
  0 ≤ e.solar_factor ∧ e.solar_factor ≤ 1 ∧
  -1 ≤ e.osc10 ∧ e.osc10 ≤ 1 ∧
  -1 ≤ e.osc8 ∧ e.osc8 ≤ 1 ∧
  -1 ≤ e.time_sin ∧ e.time_sin ≤ 1

/-- solar_power = 50 * solar_factor * (0.9 + sin(current_time / 10000) * 0.1). -/
def solar_power (e : Env) : ℚ := 50 * e.solar_factor * (0.9 + e.osc10 * 0.1)

/-- load_power = base_load * time_factor * (0.95 + sin(current_time / 8000) * 0.05)
with base_load = 80 and time_factor = 0.7 + 0.3 * sin((hour - 6) / 12 * pi). -/
def load_power (e : Env) : ℚ := 80 * (0.7 + 0.3 * e.time_sin) * (0.95 + e.osc8 * 0.05)

/-- One {timestamp, value} chart sample. -/
structure ChartPoint where
  timestamp : String
  value : ℚ
deriving DecidableEq

/-- The four instantaneous power readings of the state. -/
structure Power where
  grid : ℚ
  solar : ℚ
  battery : ℚ
  load : ℚ
deriving DecidableEq

/-- The KPI block of the state. -/
structure Kpis where
  batterySOC : ℚ
  energyToday : ℚ
  peakPowerToday : ℚ
  costSavings : ℚ
  carbonAvoided : ℚ
  activeSites : ℕ
deriving DecidableEq

/-- The four bounded chart buffers of the state. -/
structure Charts where
  grid : List ChartPoint
  solar : List ChartPoint
  load : List ChartPoint
  battery : List ChartPoint
deriving DecidableEq

/-- The process-wide simulation state. -/
structure SimState where
  power : Power
  kpis : Kpis
  charts : Charts
  lastUpdated : ℚ
deriving DecidableEq

/-- EMSSimulation._initialize_state, with `now = time.time() * 1000`. -/
def _initialize_state (now : ℚ) : SimState :=
  { power := { grid := 0, solar := 0, battery := 0, load := 0 }
    kpis :=
      { batterySOC := 75
        energyToday := 0
        peakPowerToday := 0
        costSavings := 0
        carbonAvoided := 0
        activeSites := 6 }
    charts := { grid := [], solar := [], load := [], battery := [] }
    lastUpdated := now }

/-- The battery-control branch of _advance_simulation: returns the pair
(battery_power, soc after the branch update, before clamping). -/
def battery_step (e : Env) (delta_ms : ℚ) (soc : ℚ) : ℚ × ℚ :=
  let net_power := solar_power e - load_power e
  if net_power > 5 ∧ soc < 95 then
    let battery_power := min (net_power * 0.8) 25
    (battery_power, soc + (battery_power * delta_ms / 1000 / 3600) / 100 * 2)
  else if net_power < -5 ∧ soc > 15 then
    let battery_power := max (net_power * 0.8) (-25)
    (battery_power, soc + (battery_power * delta_ms / 1000 / 3600) / 100 * 2)
  else (0, soc)

/-- Append a sample and keep only the last 100 points
(append then pop index 0 when the length exceeds 100). -/
def appendTrim (l : List ChartPoint) (p : ChartPoint) : List ChartPoint :=
  let l2 := l ++ [p]
  if l2.length > 100 then l2.drop 1 else l2

/-- EMSSimulation._advance_simulation. -/
def _advance_simulation (e : Env) (delta_ms : ℚ) (s : SimState) : SimState :=
  let solar := solar_power e
  let load := load_power e
  let bs := battery_step e delta_ms s.kpis.batterySOC
  let battery := bs.1
  let soc := max 10 (min 100 bs.2)
  let grid := load - solar - battery
  let newPower : Power :=
    { grid := round2 grid
      solar := round2 solar
      battery := round2 battery
      load := round2 load }
  let delta_hours := delta_ms / 1000 / 3600
  { power := newPower
    kpis :=
      { batterySOC := round2 soc
        energyToday := s.kpis.energyToday + load * delta_hours
        peakPowerToday := max s.kpis.peakPowerToday load
        costSavings := s.kpis.costSavings + solar * delta_hours * 0.15
        carbonAvoided := s.kpis.carbonAvoided + solar * delta_hours * 0.82
        activeSites := s.kpis.activeSites }
    charts :=
      { grid := appendTrim s.charts.grid { timestamp := e.iso, value := newPower.grid }
        solar := appendTrim s.charts.solar { timestamp := e.iso, value := newPower.solar }
        load := appendTrim s.charts.load { timestamp := e.iso, value := newPower.load }
        battery := appendTrim s.charts.battery { timestamp := e.iso, value := newPower.battery } }
    lastUpdated := e.current_time }

/-- EMSSimulation.get_state: advance when the elapsed delta exceeds 100 ms,
else return the cached state unchanged.  cls._last_update always equals
the lastUpdated field of the state (both are set together at
initialization and at every advance), so it is modelled by that field. -/
def get_state (e : Env) (s : SimState) : SimState :=
  let delta := e.current_time - s.lastUpdated
  if delta > 100 then _advance_simulation e delta s else s

/-- A sequence of successive advance calls within one process lifetime. -/
def runAdvances (steps : List (Env × ℚ)) (s : SimState) : SimState :=
  steps.foldl (fun st p => _advance_simulation p.1 p.2 st) s

/-- get_charts: the four chart series of the state, in source order
(grid, solar, load, battery). -/
def get_charts (st : SimState) :
    List ChartPoint × List ChartPoint × List ChartPoint × List ChartPoint :=
  (st.charts.grid, st.charts.solar, st.charts.load, st.charts.battery)

/-- One alert record returned by get_alerts. -/
structure Alert where
  id : String
  timestamp : String
  severity : String
  category : String
  title : String
  message : String
  acknowledged : Bool
deriving DecidableEq

/-- get_alerts, as a function of the snapshot returned by get_state and of
the isoformat timestamp read from the wall clock. -/
def get_alerts (st : SimState) (iso : String) : List Alert :=
  let soc := st.kpis.batterySOC
  let batteryAlerts : List Alert :=
    if soc < 20 then
      [{ id := "alert-battery-critical"
         timestamp := iso
         severity := "critical"
         category := "battery"
         title := "Critical Battery Level"
         message := "Battery SOC at " ++ toString (pyRound soc) ++ "%. Immediate charging required."
         acknowledged := false }]
    else if soc < 30 then
      [{ id := "alert-battery-warning"
         timestamp := iso
         severity := "warning"
         category := "battery"
         title := "Low Battery Level"
         message := "Battery SOC at " ++ toString (pyRound soc) ++ "%. Consider charging."
         acknowledged := false }]
    else []
  let grid_power := st.power.grid
  let gridAlerts : List Alert :=
    if |grid_power| > 50 then
      [{ id := "alert-grid-high"
         timestamp := iso
         severity := "warning"
         category := "grid"
         title := "High Grid Power"
         message := "Grid power at " ++ toString (pyRound |grid_power|) ++ " kW."
         acknowledged := false }]
    else []
  batteryAlerts ++ gridAlerts

/-- Values of the Python dict entries built by get_sites: strings or numbers. -/
inductive Val where
  | s (v : String)
  | q (v : ℚ)
deriving DecidableEq

/-- The fixed static site list of get_sites: (id, name, capacity). -/
def sites_static : List (String × String × ℚ) :=
  [("site-001", "Hyderabad Data Center", 1200),
   ("site-002", "Mumbai Manufacturing", 800),
   ("site-003", "Pune Office Complex", 500),
   ("site-004", "Bangalore Tech Park", 1500),
   ("site-005", "Chennai Industrial", 900),
   ("site-006", "Delhi Campus", 600)]

/-- The dict appended to the result for index `idx` and static entry `site`,
modelled as the ordered key-value list the source builds. -/
def site_entry (st : SimState) (iso : String) (idx : ℕ) (site : String × String × ℚ) :
    List (String × Val) :=
  let variance : ℚ := 0.8 + (idx : ℚ) * 0.05
  let current_power := st.power.load * variance / (sites_static.length : ℚ)
  let soc := max 10 (min 100 (st.kpis.batterySOC + ((idx : ℚ) - 3) * 2))
  [("siteId", Val.s site.1),
   ("name", Val.s site.2.1),
   ("currentPower", Val.q (round2 current_power)),
   ("soc", Val.q (round1 soc)),
   ("efficiency", Val.q (round1 (85 + (idx : ℚ) * 2))),
   ("status", Val.s (if soc > 20 then "online" else "warning")),
   ("timestamp", Val.s iso)]

/-- get_sites: one entry per element of the static list, by enumeration index. -/
def get_sites (st : SimState) (iso : String) : List (List (String × Val)) :=
  sites_static.enum.map (fun p => site_entry st iso p.1 p.2)

/-- The i-th entry of the get_sites result (empty list out of range). -/
def entryAt (st : SimState) (iso : String) (i : ℕ) : List (String × Val) :=
  (get_sites st iso).getD i []

/-- The static entry of index i: (id, name, capacity). -/
def siteAt (i : ℕ) : String × String × ℚ := sites_static.getD i ("", "", 0)

/-- C2 as the claim states it: an elapsed delta of at least 100 ms advances
the model once with that delta; a smaller delta returns the cached state. -/
abbrev getStateClaim (e : Env) (s : SimState) : Prop :=
  (100 ≤ e.current_time - s.lastUpdated →
    get_state e s = _advance_simulation e (e.current_time - s.lastUpdated) s) ∧
  (e.current_time - s.lastUpdated < 100 → get_state e s = s)

/-- C8 as the claim states it: exactly 6 entries, each carrying the name and
the capacity of the static list, with the index-scaled currentPower. -/
abbrev sitesClaim (st : SimState) (iso : String) : Prop :=
  (get_sites st iso).length = 6 ∧
  ∀ i, i < 6 →
    ("name", Val.s (siteAt i).2.1) ∈ entryAt st iso i ∧
    ("capacity", Val.q (siteAt i).2.2) ∈ entryAt st iso i ∧
    ("currentPower", Val.q (round2 (st.power.load * (0.8 + (i : ℚ) * 0.05) / 6)))
      ∈ entryAt st iso i

/-- A fixed valid environment used by the concrete witnesses:
all sine readings 0, current_time = 1000 ms. -/
def env0 : Env :=
  { current_time := 1000, iso := "t", solar_factor := 0, osc10 := 0, osc8 := 0, time_sin := 0 }

/-- The same environment read exactly 100 ms after initialization at 0. -/
def env100 : Env :=
  { current_time := 100, iso := "t", solar_factor := 0, osc10 := 0, osc8 := 0, time_sin := 0 }

/-- The freshly initialized state with now = 0. -/
def st0 : SimState := _initialize_state 0

/-- A state whose four chart buffers are full (100 samples each). -/
def st100 : SimState :=
  { st0 with
    charts :=
      { grid := List.replicate 100 { timestamp := "t", value := 0 }
        solar := List.replicate 100 { timestamp := "t", value := 0 }
        load := List.replicate 100 { timestamp := "t", value := 0 }
        battery := List.replicate 100 { timestamp := "t", value := 0 } } }

theorem le_pyRound (n : ℤ) (x : ℚ) (h : (n : ℚ) ≤ x) : n ≤ pyRound x := by
  have hf : n ≤ ⌊x⌋ := Int.le_floor.mpr h
  unfold pyRound
  split_ifs <;> omega

theorem pyRound_le (n : ℤ) (x : ℚ) (h : x ≤ (n : ℚ)) : pyRound x ≤ n := by
  have hf : ⌊x⌋ ≤ n := by
    have := Int.floor_le_floor h
    simpa using this
  have hstrict : (⌊x⌋ : ℚ) + 1/2 ≤ x → ⌊x⌋ + 1 ≤ n := by
    intro hx
    have : (⌊x⌋ : ℚ) < (n : ℚ) := by linarith
    have : ⌊x⌋ < n := by exact_mod_cast this
    omega
  unfold pyRound
  split_ifs with h1 h2 h3
  · exact hf
  · exact hstrict (by linarith)
  · exact hf
  · exact hstrict (by linarith)

theorem round2_mem_Icc (x : ℚ) (h1 : 10 ≤ x) (h2 : x ≤ 100) :
    10 ≤ round2 x ∧ round2 x ≤ 100 := by
  have hlo : (1000 : ℤ) ≤ pyRound (100 * x) := by
    apply le_pyRound
    push_cast
    linarith
  have hhi : pyRound (100 * x) ≤ (10000 : ℤ) := by
    apply pyRound_le
    push_cast
    linarith
  have hlo2 : (1000 : ℚ) ≤ (pyRound (100 * x) : ℚ) := by exact_mod_cast hlo
  have hhi2 : ((pyRound (100 * x)) : ℚ) ≤ 10000 := by exact_mod_cast hhi
  unfold round2
  constructor <;> linarith

/-- The stored SOC after an advance is the rounded clamp of the
battery-branch SOC. -/
theorem advance_batterySOC_eq (e : Env) (delta_ms : ℚ) (s : SimState) :
    (_advance_simulation e delta_ms s).kpis.batterySOC =
      round2 (max 10 (min 100 (battery_step e delta_ms s.kpis.batterySOC).2)) := rfl

/-- Claim C1: for every elapsed delta_ms that is nonnegative and every prior
state, after an advance the stored batterySOC lies in [10, 100]: the clamp
is applied after the SOC update and the rounding to 2 decimals keeps the
value in range. -/
theorem soc_in_range_after_advance (e : Env) (delta_ms : ℚ) (s : SimState)
    (hd : 0 ≤ delta_ms) :
    10 ≤ (_advance_simulation e delta_ms s).kpis.batterySOC ∧
    (_advance_simulation e delta_ms s).kpis.batterySOC ≤ 100 := by
  rw [advance_batterySOC_eq]
  apply round2_mem_Icc
  · exact le_max_left _ _
  · exact max_le (by norm_num) (min_le_left _ _)

theorem soc_in_range_after_advance_witness :
    (0 : ℚ) ≤ 1000 ∧
    (10 ≤ (_advance_simulation env0 1000 st0).kpis.batterySOC ∧
     (_advance_simulation env0 1000 st0).kpis.batterySOC ≤ 100) :=
  ⟨by norm_num, soc_in_range_after_advance env0 1000 st0 (by norm_num)⟩

/-- Claim C3: at every advance, the grid power computed before rounding is
exactly load_power - solar_power - battery_power: the stored grid reading
is the 2-decimal rounding of that exact balance, for every nonnegative
delta, every wall-clock reading and every prior state. -/
theorem grid_power_balance (e : Env) (delta_ms : ℚ) (s : SimState)
    (hd : 0 ≤ delta_ms) :
    (_advance_simulation e delta_ms s).power.grid =
      round2 (load_power e - solar_power e -
        (battery_step e delta_ms s.kpis.batterySOC).1) := rfl

theorem grid_power_balance_witness :
    (0 : ℚ) ≤ 1000 ∧
    (_advance_simulation env0 1000 st0).power.grid =
      round2 (load_power env0 - solar_power env0 -
        (battery_step env0 1000 st0.kpis.batterySOC).1) :=
  ⟨by norm_num, grid_power_balance env0 1000 st0 (by norm_num)⟩

/-- Claim C6: the battery controller: with net = solar_power - load_power
and soc the prior batterySOC, if net > 5 and soc < 95 then battery_power is
min(net * 0.8, 25) and soc is incremented by (battery_power * delta_ms
/ 1000 / 3600) / 100 * 2; else if net < -5 and soc > 15 then battery_power
is max(net * 0.8, -25) with the same (negative) update; otherwise
battery_power = 0 and soc is unchanged before clamping.  The stored fields
are the roundings of these quantities (SOC after the clamp). -/
theorem battery_controller_cases (e : Env) (delta_ms : ℚ) (s : SimState) :
    (solar_power e - load_power e > 5 ∧ s.kpis.batterySOC < 95 →
      battery_step e delta_ms s.kpis.batterySOC =
        (min ((solar_power e - load_power e) * 0.8) 25,
         s.kpis.batterySOC +
           (min ((solar_power e - load_power e) * 0.8) 25 * delta_ms / 1000 / 3600) / 100 * 2)) ∧
    (solar_power e - load_power e < -5 ∧ s.kpis.batterySOC > 15 →
      battery_step e delta_ms s.kpis.batterySOC =
        (max ((solar_power e - load_power e) * 0.8) (-25),
         s.kpis.batterySOC +
           (max ((solar_power e - load_power e) * 0.8) (-25) * delta_ms / 1000 / 3600) / 100 * 2)) ∧
    (¬(solar_power e - load_power e > 5 ∧ s.kpis.batterySOC < 95) ∧
     ¬(solar_power e - load_power e < -5 ∧ s.kpis.batterySOC > 15) →
      battery_step e delta_ms s.kpis.batterySOC = (0, s.kpis.batterySOC)) ∧
    (_advance_simulation e delta_ms s).power.battery =
      round2 (battery_step e delta_ms s.kpis.batterySOC).1 ∧
    (_advance_simulation e delta_ms s).kpis.batterySOC =
      round2 (max 10 (min 100 (battery_step e delta_ms s.kpis.batterySOC).2)) := by
  refine ⟨?_, ?_, ?_, rfl, rfl⟩
  · intro h
    simp only [battery_step]
    rw [if_pos h]
  · intro h
    simp only [battery_step]
    rw [if_neg, if_pos h]
    rintro ⟨h5, -⟩
    linarith [h.1]
  · rintro ⟨hn1, hn2⟩
    simp only [battery_step]
    rw [if_neg hn1, if_neg hn2]

theorem battery_controller_cases_witness :
    (solar_power env0 - load_power env0 < -5 ∧ st0.kpis.batterySOC > 15) ∧
    battery_step env0 1000 st0.kpis.batterySOC =
      (max ((solar_power env0 - load_power env0) * 0.8) (-25),
       st0.kpis.batterySOC +
         (max ((solar_power env0 - load_power env0) * 0.8) (-25) * 1000 / 1000 / 3600) / 100 * 2) :=
  ⟨by with_unfolding_all decide,
   (battery_controller_cases env0 1000 st0).2.1 (by with_unfolding_all decide)⟩

/-- Claim C2, counterexample: at an elapsed delta of exactly 100 ms the
claim demands an advance, but get_state returns the cached state
unchanged (the source tests delta > 100, strictly). -/
theorem get_state_at_exactly_100ms : ¬ getStateClaim env100 st0 := by
  with_unfolding_all decide

/-- Claim C2 (amended): get_state advances the model exactly once, using
the elapsed delta, iff that delta strictly exceeds 100 ms; at a delta of
at most 100 ms (including exactly 100) the cached state is returned
unchanged. -/
theorem get_state_advance_threshold (e : Env) (s : SimState) :
    (e.current_time - s.lastUpdated > 100 →
      get_state e s = _advance_simulation e (e.current_time - s.lastUpdated) s) ∧
    (e.current_time - s.lastUpdated ≤ 100 → get_state e s = s) := by
  constructor
  · intro h
    simp only [get_state]
    rw [if_pos h]
  · intro h
    simp only [get_state]
    rw [if_neg (by linarith)]

theorem get_state_advance_threshold_witness :
    env0.current_time - st0.lastUpdated > 100 ∧
    get_state env0 st0 = _advance_simulation env0 (env0.current_time - st0.lastUpdated) st0 :=
  ⟨by with_unfolding_all decide,
   (get_state_advance_threshold env0 st0).1 (by with_unfolding_all decide)⟩

theorem load_power_nonneg (e : Env) (hv : e.Valid) : 0 ≤ load_power e := by
  obtain ⟨-, -, -, -, h8lo, -, htlo, -⟩ := hv
  have a1 : (0 : ℚ) ≤ 0.7 + 0.3 * e.time_sin := by linarith
  have a2 : (0 : ℚ) ≤ 0.95 + e.osc8 * 0.05 := by linarith
  exact mul_nonneg (mul_nonneg (by norm_num) a1) a2

theorem solar_power_nonneg (e : Env) (hv : e.Valid) : 0 ≤ solar_power e := by
  obtain ⟨hsf, -, h10lo, -, -, -, -, -⟩ := hv
  have a2 : (0 : ℚ) ≤ 0.9 + e.osc10 * 0.1 := by linarith
  exact mul_nonneg (mul_nonneg (by norm_num) hsf) a2

theorem advance_kpis_step_le (e : Env) (delta_ms : ℚ) (s : SimState)
    (hv : e.Valid) (hd : 0 ≤ delta_ms) :
    s.kpis.energyToday ≤ (_advance_simulation e delta_ms s).kpis.energyToday ∧
    s.kpis.peakPowerToday ≤ (_advance_simulation e delta_ms s).kpis.peakPowerToday ∧
    s.kpis.costSavings ≤ (_advance_simulation e delta_ms s).kpis.costSavings ∧
    s.kpis.carbonAvoided ≤ (_advance_simulation e delta_ms s).kpis.carbonAvoided := by
  have hl := load_power_nonneg e hv
  have hs := solar_power_nonneg e hv
  have hdh : (0 : ℚ) ≤ delta_ms / 1000 / 3600 := by positivity
  refine ⟨?_, le_max_left _ _, ?_, ?_⟩
  · show s.kpis.energyToday ≤ s.kpis.energyToday + load_power e * (delta_ms / 1000 / 3600)
    nlinarith
  · show s.kpis.costSavings ≤
      s.kpis.costSavings + solar_power e * (delta_ms / 1000 / 3600) * 0.15
    nlinarith
  · show s.kpis.carbonAvoided ≤
      s.kpis.carbonAvoided + solar_power e * (delta_ms / 1000 / 3600) * 0.82
    nlinarith

/-- Claim C4: across every sequence of successive advances within one
process lifetime, each with a valid wall-clock reading and a nonnegative
delta, the accumulators energyToday, peakPowerToday, costSavings and
carbonAvoided are monotonically non-decreasing. -/
theorem kpi_accumulators_monotone (steps : List (Env × ℚ)) (s : SimState)
    (h : ∀ p ∈ steps, (p.1).Valid ∧ 0 ≤ p.2) :
    s.kpis.energyToday ≤ (runAdvances steps s).kpis.energyToday ∧
    s.kpis.peakPowerToday ≤ (runAdvances steps s).kpis.peakPowerToday ∧
    s.kpis.costSavings ≤ (runAdvances steps s).kpis.costSavings ∧
    s.kpis.carbonAvoided ≤ (runAdvances steps s).kpis.carbonAvoided := by
  induction steps generalizing s with
  | nil => exact ⟨le_rfl, le_rfl, le_rfl, le_rfl⟩
  | cons p ps ih =>
    have hp := h p (List.mem_cons_self p ps)
    have hrest : ∀ q ∈ ps, (q.1).Valid ∧ 0 ≤ q.2 :=
      fun q hq => h q (List.mem_cons_of_mem p hq)
    have hstep := advance_kpis_step_le p.1 p.2 s hp.1 hp.2
    have hih := ih (_advance_simulation p.1 p.2 s) hrest
    exact ⟨le_trans hstep.1 hih.1, le_trans hstep.2.1 hih.2.1,
      le_trans hstep.2.2.1 hih.2.2.1, le_trans hstep.2.2.2 hih.2.2.2⟩

theorem kpi_accumulators_monotone_witness :
    (∀ p ∈ [(env0, (1000 : ℚ))], (p.1).Valid ∧ 0 ≤ p.2) ∧
    (st0.kpis.energyToday ≤ (runAdvances [(env0, 1000)] st0).kpis.energyToday ∧
     st0.kpis.peakPowerToday ≤ (runAdvances [(env0, 1000)] st0).kpis.peakPowerToday ∧
     st0.kpis.costSavings ≤ (runAdvances [(env0, 1000)] st0).kpis.costSavings ∧
     st0.kpis.carbonAvoided ≤ (runAdvances [(env0, 1000)] st0).kpis.carbonAvoided) := by
  have hsteps : ∀ p ∈ [(env0, (1000 : ℚ))], (p.1).Valid ∧ 0 ≤ p.2 := by
    intro p hp
    simp only [List.mem_singleton] at hp
    subst hp
    refine ⟨⟨?_, ?_, ?_, ?_, ?_, ?_, ?_, ?_⟩, by norm_num⟩ <;> norm_num [env0]
  exact ⟨hsteps, kpi_accumulators_monotone [(env0, 1000)] st0 hsteps⟩

theorem length_appendTrim (l : List ChartPoint) (p : ChartPoint) :
    (appendTrim l p).length = if l.length + 1 > 100 then l.length else l.length + 1 := by
  unfold appendTrim
  simp only [List.length_append, List.length_singleton]
  split_ifs with h
  · simp
  · simp

theorem length_appendTrim_le (l : List ChartPoint) (p : ChartPoint)
    (h : l.length ≤ 100) : (appendTrim l p).length ≤ 100 := by
  rw [length_appendTrim]
  split_ifs <;> omega

theorem appendTrim_of_full (l : List ChartPoint) (p : ChartPoint)
    (h : l.length = 100) : appendTrim l p = l.tail ++ [p] := by
  unfold appendTrim
  rw [if_pos (by simp [h])]
  cases l with
  | nil => simp at h
  | cons a t => rfl

theorem charts_bounded_run (steps : List (Env × ℚ)) (s : SimState)
    (h1 : s.charts.grid.length ≤ 100) (h2 : s.charts.solar.length ≤ 100)
    (h3 : s.charts.load.length ≤ 100) (h4 : s.charts.battery.length ≤ 100) :
    (runAdvances steps s).charts.grid.length ≤ 100 ∧
    (runAdvances steps s).charts.solar.length ≤ 100 ∧
    (runAdvances steps s).charts.load.length ≤ 100 ∧
    (runAdvances steps s).charts.battery.length ≤ 100 := by
  induction steps generalizing s with
  | nil => exact ⟨h1, h2, h3, h4⟩
  | cons p ps ih =>
    exact ih (_advance_simulation p.1 p.2 s)
      (length_appendTrim_le _ _ h1) (length_appendTrim_le _ _ h2)
      (length_appendTrim_le _ _ h3) (length_appendTrim_le _ _ h4)

/-- Claim C5: after every advance reachable from the initial state, each of
the four chart buffers has length at most 100; and when a buffer is full
(100 entries) the advance evicts the oldest entry (index 0) and appends
the new sample at the end, preserving FIFO order of the survivors. -/
theorem chart_buffers_bounded_fifo :
    (∀ (steps : List (Env × ℚ)) (t0 : ℚ),
      (runAdvances steps (_initialize_state t0)).charts.grid.length ≤ 100 ∧
      (runAdvances steps (_initialize_state t0)).charts.solar.length ≤ 100 ∧
      (runAdvances steps (_initialize_state t0)).charts.load.length ≤ 100 ∧
      (runAdvances steps (_initialize_state t0)).charts.battery.length ≤ 100) ∧
    (∀ (e : Env) (delta_ms : ℚ) (s : SimState),
      (s.charts.grid.length = 100 →
        (_advance_simulation e delta_ms s).charts.grid =
          s.charts.grid.tail ++
            [{ timestamp := e.iso, value := (_advance_simulation e delta_ms s).power.grid }]) ∧
      (s.charts.solar.length = 100 →
        (_advance_simulation e delta_ms s).charts.solar =
          s.charts.solar.tail ++
            [{ timestamp := e.iso, value := (_advance_simulation e delta_ms s).power.solar }]) ∧
      (s.charts.load.length = 100 →
        (_advance_simulation e delta_ms s).charts.load =
          s.charts.load.tail ++
            [{ timestamp := e.iso, value := (_advance_simulation e delta_ms s).power.load }]) ∧
      (s.charts.battery.length = 100 →
        (_advance_simulation e delta_ms s).charts.battery =
          s.charts.battery.tail ++
            [{ timestamp := e.iso, value := (_advance_simulation e delta_ms s).power.battery }])) := by
  constructor
  · intro steps t0
    exact charts_bounded_run steps _ (by norm_num [_initialize_state])
      (by norm_num [_initialize_state]) (by norm_num [_initialize_state])
      (by norm_num [_initialize_state])
  · intro e delta_ms s
    refine ⟨fun h => ?_, fun h => ?_, fun h => ?_, fun h => ?_⟩ <;>
      exact appendTrim_of_full _ _ h

theorem chart_buffers_bounded_fifo_witness :
    st100.charts.grid.length = 100 ∧
    (_advance_simulation env0 1000 st100).charts.grid =
      st100.charts.grid.tail ++
        [{ timestamp := env0.iso, value := (_advance_simulation env0 1000 st100).power.grid }] :=
  ⟨by simp [st100], (chart_buffers_bounded_fifo.2 env0 1000 st100).1 (by simp [st100])⟩

theorem charts_equal_run (steps : List (Env × ℚ)) (s : SimState)
    (h12 : s.charts.grid.length = s.charts.solar.length)
    (h23 : s.charts.solar.length = s.charts.load.length)
    (h34 : s.charts.load.length = s.charts.battery.length) :
    (runAdvances steps s).charts.grid.length = (runAdvances steps s).charts.solar.length ∧
    (runAdvances steps s).charts.solar.length = (runAdvances steps s).charts.load.length ∧
    (runAdvances steps s).charts.load.length = (runAdvances steps s).charts.battery.length := by
  induction steps generalizing s with
  | nil => exact ⟨h12, h23, h34⟩
  | cons p ps ih =>
    refine ih (_advance_simulation p.1 p.2 s) ?_ ?_ ?_
    · show (appendTrim s.charts.grid _).length = (appendTrim s.charts.solar _).length
      rw [length_appendTrim, length_appendTrim, h12]
    · show (appendTrim s.charts.solar _).length = (appendTrim s.charts.load _).length
      rw [length_appendTrim, length_appendTrim, h23]
    · show (appendTrim s.charts.load _).length = (appendTrim s.charts.battery _).length
      rw [length_appendTrim, length_appendTrim, h34]

/-- Claim C9: initially and after every advance, the four chart buffers
have equal length (each advance appends one sample to each and trims each
by the same rule), so get_charts always returns four series of identical
length. -/
theorem chart_buffers_equal_length (steps : List (Env × ℚ)) (t0 : ℚ) :
    (get_charts (runAdvances steps (_initialize_state t0))).1.length =
      (get_charts (runAdvances steps (_initialize_state t0))).2.1.length ∧
    (get_charts (runAdvances steps (_initialize_state t0))).2.1.length =
      (get_charts (runAdvances steps (_initialize_state t0))).2.2.1.length ∧
    (get_charts (runAdvances steps (_initialize_state t0))).2.2.1.length =
      (get_charts (runAdvances steps (_initialize_state t0))).2.2.2.length :=
  charts_equal_run steps (_initialize_state t0) rfl rfl rfl

/-- Claim C7: get_alerts returns a critical battery alert iff SOC < 20, a
warning battery alert iff 20 <= SOC < 30, no battery alert iff SOC >= 30,
and a grid warning alert iff |grid_power| > 50; at most one battery alert
and at most one grid alert per call. -/
theorem alerts_iff_thresholds (st : SimState) (iso : String) :
    ((∃ a ∈ get_alerts st iso, a.category = "battery" ∧ a.severity = "critical") ↔
      st.kpis.batterySOC < 20) ∧
    ((∃ a ∈ get_alerts st iso, a.category = "battery" ∧ a.severity = "warning") ↔
      (20 ≤ st.kpis.batterySOC ∧ st.kpis.batterySOC < 30)) ∧
    ((∀ a ∈ get_alerts st iso, a.category ≠ "battery") ↔ 30 ≤ st.kpis.batterySOC) ∧
    ((∃ a ∈ get_alerts st iso, a.category = "grid") ↔ |st.power.grid| > 50) ∧
    (get_alerts st iso).countP (fun a => a.category == "battery") ≤ 1 ∧
    (get_alerts st iso).countP (fun a => a.category == "grid") ≤ 1 := by
  simp only [get_alerts]
  split_ifs with h1 h2 h3 <;>
    simp_all [List.countP_append, List.countP_cons, List.countP_nil] <;>
    linarith

/-- The get_sites result is the entry list of the six static sites. -/
theorem get_sites_entries (st : SimState) (iso : String) :
    get_sites st iso =
      [site_entry st iso 0 ("site-001", "Hyderabad Data Center", 1200),
       site_entry st iso 1 ("site-002", "Mumbai Manufacturing", 800),
       site_entry st iso 2 ("site-003", "Pune Office Complex", 500),
       site_entry st iso 3 ("site-004", "Bangalore Tech Park", 1500),
       site_entry st iso 4 ("site-005", "Chennai Industrial", 900),
       site_entry st iso 5 ("site-006", "Delhi Campus", 600)] := rfl

/-- Claim C8, counterexample: the entries returned by get_sites carry no
capacity key at all, so the claim fails already on the freshly
initialized state. -/
theorem get_sites_capacity_missing : ¬ sitesClaim st0 "t" := by
  with_unfolding_all decide

/-- Claim C8 (amended): get_sites returns exactly 6 entries; entry idx
carries the siteId and the name of the static list entry idx and a
currentPower equal to the load power scaled by (0.8 + idx * 0.05) / 6,
rounded to 2 decimals; but no entry carries a capacity field (the static
capacities are not propagated to the output). -/
theorem get_sites_shape (st : SimState) (iso : String) :
    (get_sites st iso).length = 6 ∧
    ∀ i, i < 6 →
      ("siteId", Val.s (siteAt i).1) ∈ entryAt st iso i ∧
      ("name", Val.s (siteAt i).2.1) ∈ entryAt st iso i ∧
      ("currentPower", Val.q (round2 (st.power.load * (0.8 + (i : ℚ) * 0.05) / 6)))
        ∈ entryAt st iso i ∧
      (∀ v, ("capacity", v) ∉ entryAt st iso i) := by
  refine ⟨rfl, ?_⟩
  intro i hi
  interval_cases i <;>
    · rw [entryAt, get_sites_entries]
      simp only [List.getD_cons_zero, List.getD_cons_succ]
      refine ⟨?_, ?_, ?_, ?_⟩ <;> simp [site_entry, siteAt, sites_static]

theorem get_sites_shape_witness :
    ("siteId", Val.s (siteAt 0).1) ∈ entryAt st0 "t" 0 ∧
    ("name", Val.s (siteAt 0).2.1) ∈ entryAt st0 "t" 0 ∧
    ("currentPower", Val.q (round2 (st0.power.load * (0.8 + ((0 : ℕ) : ℚ) * 0.05) / 6)))
      ∈ entryAt st0 "t" 0 := by
  have h := (get_sites_shape st0 "t").2 0 (by norm_num)
  exact ⟨h.1, h.2.1, h.2.2.1⟩

/-- Claim C10: in every get_sites entry, the derived per-site soc (global
batterySOC plus (idx - 3) * 2, clamped) lies in [10, 100], and the status
is online exactly when that derived soc exceeds 20, warning otherwise. -/
theorem site_soc_clamped_status (st : SimState) (iso : String) (i : ℕ) (hi : i < 6) :
    (10 ≤ max 10 (min 100 (st.kpis.batterySOC + ((i : ℚ) - 3) * 2)) ∧
     max 10 (min 100 (st.kpis.batterySOC + ((i : ℚ) - 3) * 2)) ≤ 100) ∧
    (("status", Val.s "online") ∈ entryAt st iso i ↔
      20 < max 10 (min 100 (st.kpis.batterySOC + ((i : ℚ) - 3) * 2))) ∧
    (("status", Val.s "warning") ∈ entryAt st iso i ↔
      ¬ 20 < max 10 (min 100 (st.kpis.batterySOC + ((i : ℚ) - 3) * 2))) := by
  refine ⟨⟨le_max_left _ _, max_le (by norm_num) (min_le_left _ _)⟩, ?_, ?_⟩ <;>
    · interval_cases i <;>
        · rw [entryAt, get_sites_entries]
          simp only [List.getD_cons_zero, List.getD_cons_succ]
          simp [site_entry, sites_static]
          split_ifs with h <;> simp_all <;> try norm_num at h ⊢ <;> try tauto

theorem site_soc_clamped_status_witness :
    (10 ≤ max 10 (min 100 (st0.kpis.batterySOC + (((0 : ℕ) : ℚ) - 3) * 2)) ∧
     max 10 (min 100 (st0.kpis.batterySOC + (((0 : ℕ) : ℚ) - 3) * 2)) ≤ 100) ∧
    (("status", Val.s "online") ∈ entryAt st0 "t" 0 ↔
      20 < max 10 (min 100 (st0.kpis.batterySOC + (((0 : ℕ) : ℚ) - 3) * 2))) ∧
    (("status", Val.s "warning") ∈ entryAt st0 "t" 0 ↔
      ¬ 20 < max 10 (min 100 (st0.kpis.batterySOC + (((0 : ℕ) : ℚ) - 3) * 2))) :=
  site_soc_clamped_status st0 "t" 0 (by norm_num)

end EMS
